import Mathlib

/-!
Verification development for AppIconKit (`src/appiconkit.ts`, `src/cli.ts`).

The repository generates Apple/web icon and image asset bundles from a single
source image.  The core logic — per-variant dimension resolution, resize-plan
construction, manifest annotation, and web favicon planning — is embedded here
as pure Lean functions over ℚ (modelling JavaScript numbers; every arithmetic
operation the code performs on dimension values is exact on the inputs that
matter, so ℚ is a faithful model of the `number` values that arise).
Filesystem and image-codec I/O is out of scope (per the spec): we model the
*plan* each function builds — the resize instructions, the filenames, and the
manifest content — not the pixel operations.

The repository contains two historical variants of the generator class.  They
share the planning loop verbatim; they differ in the policy applied when an
icon source image is smaller than 1024×1024 (first variant: `console.warn`,
i.e. lenient; second variant: `Promise.reject`, i.e. strict) and in the exact
point where resizes are interleaved with manifest annotation.  Both policies
are modelled below (`iconTooSmall`, `strictSizeCheck`).
-/

namespace AppIconKit

/-- `type ImageFormat = 'bmp' | 'gif' | 'jpeg' | 'png' | 'tiff' | 'default'`
(appiconkit.ts line 5). -/
inductive ImageFormat
  | bmp
  | gif
  | jpeg
  | png
  | tiff
  | default
deriving DecidableEq, Repr

/-- `type IconPlatform` (appiconkit.ts line 6). -/
inductive IconPlatform
  | ios
  | iphone
  | ipad
  | watchos
  | watch
  | macos
  | mac
  | web
deriving DecidableEq, Repr

/-- `type GeneratorType = 'icon' | 'image' | 'iconset' | 'imageset'`
(appiconkit.ts line 7). -/
inductive GeneratorType
  | icon
  | image
  | iconset
  | imageset
deriving DecidableEq, Repr

/-- `interface GeneratorOption` (appiconkit.ts lines 8–14).  TypeScript
optional fields (`width?`, `height?`, `format?`) are modelled as `Option`. -/
structure GeneratorOption where
  type : GeneratorType
  platform : IconPlatform
  width : Option ℚ := none
  height : Option ℚ := none
  format : Option ImageFormat := none
deriving DecidableEq, Repr

/-- `interface ResizeOption` (appiconkit.ts lines 16–21). -/
structure ResizeOption where
  width : ℚ
  height : ℚ
  filename : Option String := none
  format : Option ImageFormat := none
deriving DecidableEq, Repr

/-- One entry of a platform template (`config/<dir>/Contents.json`,
iterated as `imageConfig` in the planning loop).  The code reads the entry's
`size` string as the pair of numbers `size.split('x')` parses to, and its
`scale` string as the number `Number(scale.slice(0, -1))` parses to; those
parsed values are the `sizeW`/`sizeH`/`scale` fields here.  All other entry
fields (`idiom`, role metadata) are passed through untouched and are modelled
by the opaque-to-the-algorithm `idiom` field.  `filename` models the
`filename` property the loop assigns into the entry (`none` = absent, as the
shipped templates have no `filename` key). -/
structure ImageConfig where
  sizeW : ℚ
  sizeH : ℚ
  scale : ℚ
  idiom : String
  filename : Option String := none
deriving DecidableEq, Repr

/-- `Jimp.AUTO`, the sentinel value `-1` the jimp library (and this code)
uses for an unspecified dimension. -/
def jimpAUTO : ℚ := -1

/-- Rendering of an `ImageFormat` value back to its string, as used in the
template literals `.${programFormat}` / `.${option.format ?? 'png'}`. -/
def formatStr : ImageFormat → String
  | ImageFormat.bmp => "bmp"
  | ImageFormat.gif => "gif"
  | ImageFormat.jpeg => "jpeg"
  | ImageFormat.png => "png"
  | ImageFormat.tiff => "tiff"
  | ImageFormat.default => "default"

/-- Models JavaScript template-literal rendering of a numeric value
(`${width}`, `${scale}`).  Integral values render as their decimal integer
form, exactly as JavaScript renders them; for non-integral values we fall
back to the rational `toString` (no claim below depends on the decimal
rendering of a non-integral number). -/
def numStr (q : ℚ) : String :=
  if q.den = 1 then toString q.num else toString q

/-- The size-check condition of the planning functions (appiconkit.ts
line 115 and line 395, identical in both variants):
`type === 'icon' && (image.getWidth() < 1024 || image.getHeight() < 1024)`. -/
def iconTooSmall (t : GeneratorType) (srcW srcH : ℚ) : Bool :=
  decide (t = GeneratorType.icon ∧ (srcW < 1024 ∨ srcH < 1024))

/-- The strict variant's reaction to the size check (appiconkit.ts
lines 395–397): the whole request is rejected. -/
def strictSizeCheck (t : GeneratorType) (srcW srcH : ℚ) : Except String Unit :=
  if iconTooSmall t srcW srcH then
    Except.error "Error: Icon size must be greater than 1024x1024."
  else
    Except.ok ()

/-- Shared tail of the planning-loop body (appiconkit.ts lines 152–167):
extension selection (`if (programFormat !== 'default') extName = '.' +
programFormat` else keep the input extension), the resize option pushed for
this entry, and the in-place annotation `imageConfig['filename'] =
newFileName + extName`. -/
def entryTail (fmt : ImageFormat) (ext : String) (width height : ℚ)
    (newFileName : String) (cfg : ImageConfig) : ResizeOption × ImageConfig :=
  let extName := if fmt ≠ ImageFormat.default then "." ++ formatStr fmt else ext
  ({ width := width, height := height, filename := some newFileName,
     format := some fmt },
   { cfg with filename := some (newFileName ++ extName) })

/-- One iteration of the planning loop (appiconkit.ts lines 133–167).
`pw`/`ph` are the mutable `programWidth`/`programHeight` variables; the
returned first component is the (possibly updated) `programWidth`, which the
both-auto default `programWidth = image.bitmap.width / 3` assigns into. -/
def processEntry (t : GeneratorType) (fmt : ImageFormat) (srcW : ℚ)
    (baseName ext : String) (pw ph : ℚ) (cfg : ImageConfig) :
    ℚ × ResizeOption × ImageConfig :=
  if t = GeneratorType.icon ∨ t = GeneratorType.iconset then
    let width := cfg.sizeW * cfg.scale
    let height := cfg.sizeH * cfg.scale
    (pw, entryTail fmt ext width height (baseName ++ "-" ++ numStr width) cfg)
  else
    let pw1 := if ph = jimpAUTO ∧ pw = jimpAUTO then srcW / 3 else pw
    let width := if pw1 = jimpAUTO then jimpAUTO else pw1 * cfg.scale
    let height := if ph = jimpAUTO then jimpAUTO else ph * cfg.scale
    (pw1, entryTail fmt ext width height
      (baseName ++ "@" ++ numStr cfg.scale ++ "x") cfg)

/-- The full planning loop `for (let imageConfig of contents.images)`
(appiconkit.ts lines 133–168), threading the mutable `programWidth`
through the iterations. -/
def processEntries (t : GeneratorType) (fmt : ImageFormat) (srcW : ℚ)
    (baseName ext : String) : ℚ → ℚ → List ImageConfig →
    List (ResizeOption × ImageConfig)
  | _, _, [] => []
  | pw, ph, cfg :: rest =>
    let r := processEntry t fmt srcW baseName ext pw ph cfg
    r.2 :: processEntries t fmt srcW baseName ext r.1 ph rest

/-- The plan `generateImageAssets` builds for a non-web request:
the output directory name, whether the too-small warning fires, the resize
instructions handed to `generateImages`, and the annotated manifest written
to `Contents.json`. -/
structure AssetPlan where
  outputDir : String
  warning : Bool
  resizeOptions : List ResizeOption
  contents : List ImageConfig
deriving DecidableEq, Repr

/-- The non-web body of `generateImageAssets` (appiconkit.ts lines 81–171)
as a pure plan builder.  `baseName` models
`path.basename(inputPath).split('.')[0]`, `ext` models
`path.extname(inputPath)`, `srcW`/`srcH` the decoded source image's
dimensions, and `template` the `config.images` array loaded from
`config/<pathDir>/Contents.json`.  The defaulting
`options.width ?? Jimp.AUTO` etc. is the `getD` below. -/
def assetsPlanCore (baseName ext : String) (srcW srcH : ℚ)
    (template : List ImageConfig) (options : GeneratorOption) : AssetPlan :=
  let t := options.type
  let pw := options.width.getD jimpAUTO
  let ph := options.height.getD jimpAUTO
  let fmt := options.format.getD ImageFormat.png
  let pairs := processEntries t fmt srcW baseName ext pw ph template
  { outputDir :=
      if t = GeneratorType.icon ∨ t = GeneratorType.iconset then
        "AppIcon.appiconset"
      else
        baseName ++ ".imageset",
    warning := iconTooSmall t srcW srcH,
    resizeOptions := pairs.map Prod.fst,
    contents := pairs.map Prod.snd }

/-- `platformMap` (appiconkit.ts lines 94–103). -/
def platformMap : IconPlatform → String
  | IconPlatform.ios => "ios"
  | IconPlatform.iphone => "ios"
  | IconPlatform.ipad => "ios"
  | IconPlatform.watchos => "watchos"
  | IconPlatform.watch => "watchos"
  | IconPlatform.macos => "macos"
  | IconPlatform.mac => "macos"
  | IconPlatform.web => "web"

/-- `const pathDir = type === 'icon' ? platformMap[platform] : 'imageset'`
(appiconkit.ts line 104): the template directory the request loads. -/
def pathDir (t : GeneratorType) (p : IconPlatform) : String :=
  if t = GeneratorType.icon then platformMap p else "imageset"

/-- The two fixed dimension lists of `config/web/config.json`.  Modelled from
the spec: the concrete numeric lists live in `config/web/config.json`, which
is not part of the sources; the spec describes them only as "a configured
list of dimensions" for Apple touch icons and another for favicons, so the
planning functions below are parametrised over them. -/
structure WebConfig where
  appleIconDimensions : List ℚ
  favIconDimensions : List ℚ
deriving DecidableEq, Repr

/-- The resize option pushed per Apple-touch-icon dimension
(appiconkit.ts lines 189–194). -/
def appleIconOption (d : ℚ) : ResizeOption :=
  { width := d, height := d,
    filename := some ("apple-touch-icon-" ++ numStr d ++ "x" ++ numStr d),
    format := some ImageFormat.png }

/-- The HTML line concatenated per Apple-touch-icon dimension
(appiconkit.ts line 195). -/
def appleIconLink (d : ℚ) : String :=
  "<link rel=\"apple-touch-icon-precomposed\" sizes=\"" ++ numStr d ++ "x"
    ++ numStr d ++ "\" href=\"apple-touch-icon-" ++ numStr d ++ "x" ++ numStr d
    ++ ".png\" />\n"

/-- The resize option pushed per favicon dimension
(appiconkit.ts lines 198–203). -/
def favIconOption (d : ℚ) : ResizeOption :=
  { width := d, height := d,
    filename := some ("favicon-" ++ numStr d ++ "x" ++ numStr d),
    format := some ImageFormat.png }

/-- The HTML line concatenated per favicon dimension
(appiconkit.ts line 204). -/
def favIconLink (d : ℚ) : String :=
  "<link rel=\"icon\" type=\"image/png\" href=\"favicon-" ++ numStr d ++ "x"
    ++ numStr d ++ ".png\" sizes=\"" ++ numStr d ++ "x" ++ numStr d
    ++ "\" />\n"

/-- The plan `generateWebIconImages` builds: the resize options handed to the
executor, the accumulated HTML code, and the fixed name of the text artifact
it is written to. -/
structure WebPlan where
  options : List ResizeOption
  htmlCode : String
  codeFilename : String
deriving DecidableEq, Repr

/-- `generateWebIconImages` (appiconkit.ts lines 179–215) as a pure plan
builder: one square png resize option per Apple-touch-icon dimension, then
one per favicon dimension, in list order; `htmlCode` accumulates one `<link>`
line per dimension in the same order; the code is written to `code.txt`. -/
def generateWebIconImagesPlan (cfg : WebConfig) : WebPlan :=
  { options := cfg.appleIconDimensions.map appleIconOption
      ++ cfg.favIconDimensions.map favIconOption,
    htmlCode := String.join (cfg.appleIconDimensions.map appleIconLink)
      ++ String.join (cfg.favIconDimensions.map favIconLink),
    codeFilename := "code.txt" }

/-- Result of `generateImageAssets`: web requests return the web plan (the
early return at appiconkit.ts lines 89–92, before any template is loaded);
all other requests return the asset plan. -/
inductive GenPlan
  | web (plan : WebPlan)
  | assets (plan : AssetPlan)
deriving DecidableEq, Repr

/-- Extracts the asset plan of a non-web result. -/
def GenPlan.assetsPlan : GenPlan → Option AssetPlan
  | GenPlan.web _ => none
  | GenPlan.assets p => some p

/-- `generateImageAssets` (appiconkit.ts lines 75–172) as a pure plan
builder.  The `generatorOption ?? { type: 'icon', platform: 'ios' }`
defaulting is the `getD`. -/
def generateImageAssetsPlan (baseName ext : String) (srcW srcH : ℚ)
    (template : List ImageConfig) (webCfg : WebConfig)
    (generatorOption : Option GeneratorOption) : GenPlan :=
  let options := generatorOption.getD
    { type := GeneratorType.icon, platform := IconPlatform.ios }
  if options.platform = IconPlatform.web then
    GenPlan.web (generateWebIconImagesPlan webCfg)
  else
    GenPlan.assets (assetsPlanCore baseName ext srcW srcH template options)

/-- The filename the executor `generateImages` (appiconkit.ts lines 234–247)
writes for one resize option: `option.format === 'default'` keeps the input
extension, otherwise `.${option.format ?? 'png'}`; a missing
`option.filename` falls back to `Icon-${option.width}`. -/
def executorFileName (ext : String) (option : ResizeOption) : String :=
  let newExtName :=
    if option.format = some ImageFormat.default then ext
    else "." ++ formatStr (option.format.getD ImageFormat.png)
  match option.filename with
  | some f => f ++ newExtName
  | none => "Icon-" ++ numStr option.width ++ newExtName

/-- `generateImageSet` (appiconkit.ts lines 60–67) builds this option record:
note `type: 'icon'` — not `'image'` — with platform `'ios'`. -/
def generateImageSetOption (width height : Option ℚ) : GeneratorOption :=
  { type := GeneratorType.icon, platform := IconPlatform.ios,
    width := some (width.getD jimpAUTO), height := some (height.getD jimpAUTO) }

/-- The second (strict) variant's `generateImageSet` (appiconkit.ts lines
338–346) additionally takes a format and defaults it to png; it likewise
passes `type: 'icon'`, platform `'ios'`. -/
def generateImageSetOptionStrict (width height : Option ℚ)
    (format : Option ImageFormat) : GeneratorOption :=
  { type := GeneratorType.icon, platform := IconPlatform.ios,
    width := some (width.getD jimpAUTO), height := some (height.getD jimpAUTO),
    format := some (format.getD ImageFormat.png) }

/-- The plan produced by the public `generateImageSet(input, output, width,
height)` entry point: it forwards to `generateImageAssets` with the option
record above. -/
def generateImageSetPlan (baseName ext : String) (srcW srcH : ℚ)
    (template : List ImageConfig) (webCfg : WebConfig)
    (width height : Option ℚ) : GenPlan :=
  generateImageAssetsPlan baseName ext srcW srcH template webCfg
    (some (generateImageSetOption width height))

/-- Because the planning loop assigns into the very objects of the
`require`-cached template (`let contents = config;` aliases the cached
document, and `imageConfig['filename'] = ...` mutates each cached entry in
place), the in-memory template a second request loads is exactly the
annotated manifest of the first request.  This definition makes that cache
state explicit. -/
def cachedTemplateAfter (baseName ext : String) (srcW srcH : ℚ)
    (template : List ImageConfig) (options : GeneratorOption) :
    List ImageConfig :=
  (assetsPlanCore baseName ext srcW srcH template options).contents

/-- `toLowerCase` on option strings (cli.ts lines 26, 32, 38), modelled as
character-wise ASCII lowering over the string's character list. -/
def toLower (s : String) : String := ⟨s.data.map Char.toLower⟩

/-- The type-string validation of `buildOptions` (cli.ts lines 26–30):
membership in the type set, falling back to `'icon'`. -/
def parseTypeStr : String → GeneratorType
  | "icon" => GeneratorType.icon
  | "image" => GeneratorType.image
  | "iconset" => GeneratorType.iconset
  | "imageset" => GeneratorType.imageset
  | _ => GeneratorType.icon

/-- The platform-string validation of `buildOptions` (cli.ts lines 32–36):
membership in the platform set, falling back to `'ios'`. -/
def parsePlatformStr : String → IconPlatform
  | "ios" => IconPlatform.ios
  | "iphone" => IconPlatform.iphone
  | "ipad" => IconPlatform.ipad
  | "watchos" => IconPlatform.watchos
  | "watch" => IconPlatform.watch
  | "macos" => IconPlatform.macos
  | "mac" => IconPlatform.mac
  | "web" => IconPlatform.web
  | _ => IconPlatform.ios

/-- The format-string recognition of `buildOptions` (cli.ts line 39):
`none` when the string is not in the format set. -/
def parseFormatStr : String → Option ImageFormat
  | "bmp" => some ImageFormat.bmp
  | "gif" => some ImageFormat.gif
  | "jpeg" => some ImageFormat.jpeg
  | "png" => some ImageFormat.png
  | "tiff" => some ImageFormat.tiff
  | "default" => some ImageFormat.default
  | _ => none

/-- `buildOptions` (cli.ts lines 23–56): normalises type, platform and
format, forcing `format = 'png'` when the format is unrecognised or the type
is `'icon'` (cli.ts line 41), and forcing non-jpeg/png image formats to png
on Apple platforms (cli.ts line 45). -/
def buildOptions (typeOpt platformOpt formatOpt : String)
    (widthOpt heightOpt : ℚ) : GeneratorOption :=
  let programType := parseTypeStr (toLower typeOpt)
  let programPlatform := parsePlatformStr (toLower platformOpt)
  let f0 := parseFormatStr (toLower formatOpt)
  let f1 :=
    if f0.isNone ∨ programType = GeneratorType.icon then ImageFormat.png
    else f0.getD ImageFormat.png
  let f2 :=
    if programType = GeneratorType.image ∧ programPlatform ≠ IconPlatform.web
        ∧ f1 ≠ ImageFormat.jpeg ∧ f1 ≠ ImageFormat.png then
      ImageFormat.png
    else f1
  { type := programType, platform := programPlatform,
    width := some widthOpt, height := some heightOpt, format := some f2 }

/-! ### Helper lemmas about the planning loop -/

/-- A type in the image/imageset family is not in the icon/iconset family. -/
lemma not_icon_family {t : GeneratorType}
    (ht : t = GeneratorType.image ∨ t = GeneratorType.imageset) :
    ¬(t = GeneratorType.icon ∨ t = GeneratorType.iconset) := by
  rcases ht with h | h <;> subst h <;> simp

/-- Unfolding of `processEntry` in the icon/iconset branch. -/
lemma processEntry_icon {t : GeneratorType}
    (ht : t = GeneratorType.icon ∨ t = GeneratorType.iconset)
    (fmt : ImageFormat) (srcW : ℚ) (baseName ext : String) (pw ph : ℚ)
    (cfg : ImageConfig) :
    processEntry t fmt srcW baseName ext pw ph cfg
      = (pw, entryTail fmt ext (cfg.sizeW * cfg.scale) (cfg.sizeH * cfg.scale)
          (baseName ++ "-" ++ numStr (cfg.sizeW * cfg.scale)) cfg) := by
  simp only [processEntry, if_pos ht]

/-- Unfolding of `processEntry` in the image/imageset branch. -/
lemma processEntry_image {t : GeneratorType}
    (ht : t = GeneratorType.image ∨ t = GeneratorType.imageset)
    (fmt : ImageFormat) (srcW : ℚ) (baseName ext : String) (pw ph : ℚ)
    (cfg : ImageConfig) :
    processEntry t fmt srcW baseName ext pw ph cfg
      = (let pw1 := if ph = jimpAUTO ∧ pw = jimpAUTO then srcW / 3 else pw
         (pw1, entryTail fmt ext
           (if pw1 = jimpAUTO then jimpAUTO else pw1 * cfg.scale)
           (if ph = jimpAUTO then jimpAUTO else ph * cfg.scale)
           (baseName ++ "@" ++ numStr cfg.scale ++ "x") cfg)) := by
  simp only [processEntry, if_neg (not_icon_family ht)]

/-- `processEntry` never reads the entry's pre-existing `filename` field; it
only overwrites it. -/
lemma processEntry_filename_irrelevant (t : GeneratorType) (fmt : ImageFormat)
    (srcW : ℚ) (baseName ext : String) (pw ph : ℚ) (cfg : ImageConfig)
    (fn : Option String) :
    processEntry t fmt srcW baseName ext pw ph { cfg with filename := fn }
      = processEntry t fmt srcW baseName ext pw ph cfg := by
  simp only [processEntry, entryTail]

/-- The manifest filename an entry is annotated with is exactly the filename
the executor (`generateImages`) writes for that entry's resize option. -/
lemma entryTail_filename_matches (fmt : ImageFormat) (ext : String)
    (width height : ℚ) (newFileName : String) (cfg : ImageConfig) :
    (entryTail fmt ext width height newFileName cfg).2.filename
      = some (executorFileName ext (entryTail fmt ext width height newFileName cfg).1) := by
  by_cases h : fmt = ImageFormat.default
  · subst h
    simp [entryTail, executorFileName]
  · simp [entryTail, executorFileName, h]

/-- Per-entry version of the manifest/executor filename agreement. -/
lemma processEntry_filename_matches (t : GeneratorType) (fmt : ImageFormat)
    (srcW : ℚ) (baseName ext : String) (pw ph : ℚ) (cfg : ImageConfig) :
    (processEntry t fmt srcW baseName ext pw ph cfg).2.2.filename
      = some (executorFileName ext (processEntry t fmt srcW baseName ext pw ph cfg).2.1) := by
  by_cases ht : t = GeneratorType.icon ∨ t = GeneratorType.iconset
  · simp only [processEntry, if_pos ht]
    exact entryTail_filename_matches ..
  · simp only [processEntry, if_neg ht]
    exact entryTail_filename_matches ..

/-- The loop emits exactly one (resize option, manifest entry) pair per
template entry. -/
lemma processEntries_length (t : GeneratorType) (fmt : ImageFormat)
    (srcW : ℚ) (baseName ext : String) :
    ∀ (template : List ImageConfig) (pw ph : ℚ),
    (processEntries t fmt srcW baseName ext pw ph template).length
      = template.length := by
  intro template
  induction template with
  | nil => intro pw ph; rfl
  | cons cfg rest ih =>
    intro pw ph
    simp only [processEntries, List.length_cons, ih]

/-- Manifest filenames agree with executor filenames across the whole loop. -/
lemma processEntries_filename_matches (t : GeneratorType) (fmt : ImageFormat)
    (srcW : ℚ) (baseName ext : String) :
    ∀ (template : List ImageConfig) (pw ph : ℚ),
    (processEntries t fmt srcW baseName ext pw ph template).map
        (fun pr => pr.2.filename)
      = (processEntries t fmt srcW baseName ext pw ph template).map
        (fun pr => some (executorFileName ext pr.1)) := by
  intro template
  induction template with
  | nil => intro pw ph; rfl
  | cons cfg rest ih =>
    intro pw ph
    simp only [processEntries, List.map_cons, ih]
    rw [processEntry_filename_matches]

/-- Every resize option the loop emits carries the request format and an
explicit filename. -/
lemma processEntries_format (t : GeneratorType) (fmt : ImageFormat)
    (srcW : ℚ) (baseName ext : String) :
    ∀ (template : List ImageConfig) (pw ph : ℚ),
    ∀ pr ∈ processEntries t fmt srcW baseName ext pw ph template,
      pr.1.format = some fmt ∧ ∃ f, pr.1.filename = some f := by
  intro template
  induction template with
  | nil => intro pw ph pr h; cases h
  | cons cfg rest ih =>
    intro pw ph pr h
    rcases List.mem_cons.mp h with h | h
    · subst h
      by_cases ht : t = GeneratorType.icon ∨ t = GeneratorType.iconset <;>
        simp [processEntry, ht, entryTail]
    · exact ih _ _ pr h

/-- Reprocessing an entry the loop has already annotated gives the same
result as processing the pristine entry: the annotation only overwrites the
`filename` field, which the loop never reads. -/
lemma processEntry_rerun (t : GeneratorType) (fmt : ImageFormat)
    (srcW : ℚ) (baseName ext : String) (pw ph : ℚ) (cfg : ImageConfig) :
    processEntry t fmt srcW baseName ext pw ph
        ((processEntry t fmt srcW baseName ext pw ph cfg).2.2)
      = processEntry t fmt srcW baseName ext pw ph cfg := by
  by_cases ht : t = GeneratorType.icon ∨ t = GeneratorType.iconset <;>
    simp [processEntry, ht, entryTail]

/-- Rerunning the loop on its own annotated output (the state the
`require`-cached template is left in) reproduces that output exactly. -/
lemma processEntries_rerun (t : GeneratorType) (fmt : ImageFormat)
    (srcW : ℚ) (baseName ext : String) :
    ∀ (template : List ImageConfig) (pw ph : ℚ),
    processEntries t fmt srcW baseName ext pw ph
        ((processEntries t fmt srcW baseName ext pw ph template).map Prod.snd)
      = processEntries t fmt srcW baseName ext pw ph template := by
  intro template
  induction template with
  | nil => intro pw ph; rfl
  | cons cfg rest ih =>
    intro pw ph
    simp only [processEntries, List.map_cons]
    rw [processEntry_rerun, ih]

/-- For icon/iconset requests the loop's output does not depend on the
request width/height state at all. -/
lemma processEntries_icon_indep {t : GeneratorType}
    (ht : t = GeneratorType.icon ∨ t = GeneratorType.iconset)
    (fmt : ImageFormat) (srcW : ℚ) (baseName ext : String) :
    ∀ (template : List ImageConfig) (pw ph pw2 ph2 : ℚ),
    processEntries t fmt srcW baseName ext pw ph template
      = processEntries t fmt srcW baseName ext pw2 ph2 template := by
  intro template
  induction template with
  | nil => intro pw ph pw2 ph2; rfl
  | cons cfg rest ih =>
    intro pw ph pw2 ph2
    simp only [processEntries, processEntry_icon ht]
    rw [ih pw ph pw2 ph2]

/-- For icon/iconset requests every planned target dimension is exactly
`sizeSpec × scale`. -/
lemma processEntries_icon_dims {t : GeneratorType}
    (ht : t = GeneratorType.icon ∨ t = GeneratorType.iconset)
    (fmt : ImageFormat) (srcW : ℚ) (baseName ext : String) :
    ∀ (template : List ImageConfig) (pw ph : ℚ),
    (processEntries t fmt srcW baseName ext pw ph template).map
        (fun pr => (pr.1.width, pr.1.height))
      = template.map (fun c => (c.sizeW * c.scale, c.sizeH * c.scale)) := by
  intro template
  induction template with
  | nil => intro pw ph; rfl
  | cons cfg rest ih =>
    intro pw ph
    simp only [processEntries, processEntry_icon ht, List.map_cons, entryTail]
    rw [ih]

/-- Membership description of the loop's output: each emitted pair carries
the request format, an explicit filename stem, and a manifest filename that
is the stem plus the selected extension — which is also exactly what the
executor writes for that pair's resize option. -/
lemma processEntries_mem (t : GeneratorType) (fmt : ImageFormat)
    (srcW : ℚ) (baseName ext : String) :
    ∀ (template : List ImageConfig) (pw ph : ℚ),
    ∀ pr ∈ processEntries t fmt srcW baseName ext pw ph template,
      ∃ f, pr.1.format = some fmt ∧ pr.1.filename = some f
        ∧ pr.2.filename = some (f ++
            (if fmt = ImageFormat.default then ext else "." ++ formatStr fmt))
        ∧ executorFileName ext pr.1 = f ++
            (if fmt = ImageFormat.default then ext else "." ++ formatStr fmt) := by
  intro template
  induction template with
  | nil => intro pw ph pr h; cases h
  | cons cfg rest ih =>
    intro pw ph pr h
    rcases List.mem_cons.mp h with h | h
    · subst h
      by_cases hd : fmt = ImageFormat.default <;>
        by_cases ht : t = GeneratorType.icon ∨ t = GeneratorType.iconset <;>
          simp [processEntry, ht, entryTail, executorFileName, hd]
    · exact ih _ _ pr h

/-- The loop preserves every template field other than `filename`. -/
lemma processEntries_preserves_fields (t : GeneratorType) (fmt : ImageFormat)
    (srcW : ℚ) (baseName ext : String) :
    ∀ (template : List ImageConfig) (pw ph : ℚ),
    (processEntries t fmt srcW baseName ext pw ph template).map
        (fun pr => (pr.2.sizeW, pr.2.sizeH, pr.2.scale, pr.2.idiom))
      = template.map (fun c => (c.sizeW, c.sizeH, c.scale, c.idiom)) := by
  intro template
  induction template with
  | nil => intro pw ph; rfl
  | cons cfg rest ih =>
    intro pw ph
    have hcfg : ∀ pw2, (processEntry t fmt srcW baseName ext pw2 ph cfg).2.2.sizeW = cfg.sizeW
        ∧ (processEntry t fmt srcW baseName ext pw2 ph cfg).2.2.sizeH = cfg.sizeH
        ∧ (processEntry t fmt srcW baseName ext pw2 ph cfg).2.2.scale = cfg.scale
        ∧ (processEntry t fmt srcW baseName ext pw2 ph cfg).2.2.idiom = cfg.idiom := by
      intro pw2
      by_cases ht : t = GeneratorType.icon ∨ t = GeneratorType.iconset <;>
        simp [processEntry, ht, entryTail]
    simp only [processEntries, List.map_cons, ih,
      (hcfg pw).1, (hcfg pw).2.1, (hcfg pw).2.2.1, (hcfg pw).2.2.2]

/-! ### Claim theorems -/

/-- Claim C5: for a request whose kind is icon or iconset, every variant's
produced target width and height equal `parse(sizeSpec) × parse(scaleSuffix)`
exactly (the arithmetic in the model is exact — no rounding), and the
request's explicit width/height state has no effect on the variant's resize
option or manifest entry. -/
theorem c5_icon_dims_from_template (t : GeneratorType) (fmt : ImageFormat)
    (srcW : ℚ) (baseName ext : String) (pw ph pw2 ph2 : ℚ) (cfg : ImageConfig)
    (ht : t = GeneratorType.icon ∨ t = GeneratorType.iconset) :
    (processEntry t fmt srcW baseName ext pw ph cfg).2.1.width
        = cfg.sizeW * cfg.scale
    ∧ (processEntry t fmt srcW baseName ext pw ph cfg).2.1.height
        = cfg.sizeH * cfg.scale
    ∧ (processEntry t fmt srcW baseName ext pw ph cfg).2
        = (processEntry t fmt srcW baseName ext pw2 ph2 cfg).2 := by
  simp [processEntry_icon ht, entryTail]

/-- Witness for C5 at the spec's example: a `60x60` `2x` template entry
yields a 120×120 target, whatever width/height the request carried. -/
theorem c5_icon_dims_from_template_witness :
    (processEntry GeneratorType.icon ImageFormat.png 2048 "img" ".png"
        jimpAUTO jimpAUTO ⟨60, 60, 2, "iphone", none⟩).2.1.width = 120
    ∧ (processEntry GeneratorType.icon ImageFormat.png 2048 "img" ".png"
        jimpAUTO jimpAUTO ⟨60, 60, 2, "iphone", none⟩).2.1.height = 120 := by
  have h := c5_icon_dims_from_template GeneratorType.icon ImageFormat.png 2048
    "img" ".png" jimpAUTO jimpAUTO 0 0 ⟨60, 60, 2, "iphone", none⟩ (Or.inl rfl)
  refine ⟨?_, ?_⟩
  · rw [h.1]; norm_num
  · rw [h.2.1]; norm_num

/-- Claim C7: for an image/imageset request that supplies both an explicit
width and an explicit height, each variant's target is exactly
`(width × scaleFactor, height × scaleFactor)`. -/
theorem c7_explicit_dims (t : GeneratorType) (fmt : ImageFormat)
    (srcW : ℚ) (baseName ext : String) (pw ph : ℚ) (cfg : ImageConfig)
    (ht : t = GeneratorType.image ∨ t = GeneratorType.imageset)
    (hw : pw ≠ jimpAUTO) (hh : ph ≠ jimpAUTO) :
    (processEntry t fmt srcW baseName ext pw ph cfg).2.1.width
        = pw * cfg.scale
    ∧ (processEntry t fmt srcW baseName ext pw ph cfg).2.1.height
        = ph * cfg.scale := by
  rw [processEntry_image ht]
  simp [entryTail, hw, hh]

/-- Witness for C7 at the spec's example: width 160, height 120 at scale 2
yield exactly a 320×240 target (and likewise 160×120 at 1x, 480×360 at 3x:
the theorem instantiates at any scale). -/
theorem c7_explicit_dims_witness :
    (processEntry GeneratorType.image ImageFormat.png 2048 "img" ".png"
        160 120 ⟨0, 0, 2, "universal", none⟩).2.1.width = 320
    ∧ (processEntry GeneratorType.image ImageFormat.png 2048 "img" ".png"
        160 120 ⟨0, 0, 2, "universal", none⟩).2.1.height = 240 := by
  have h := c7_explicit_dims GeneratorType.image ImageFormat.png 2048
    "img" ".png" 160 120 ⟨0, 0, 2, "universal", none⟩ (Or.inl rfl)
    (by norm_num [jimpAUTO]) (by norm_num [jimpAUTO])
  refine ⟨?_, ?_⟩
  · rw [h.1]; norm_num
  · rw [h.2]; norm_num

/-- Counterexample to claim C4 as stated: the size check never fires for the
`iconset` kind — the code tests `type === 'icon'` only — so a 1023×1023
source with an iconset request triggers neither the lenient warning nor the
strict failure, although the claim says it must. -/
theorem c4_counterexample :
    iconTooSmall GeneratorType.iconset 1023 1023 = false
    ∧ strictSizeCheck GeneratorType.iconset 1023 1023 = Except.ok ()
    ∧ (assetsPlanCore "img" ".png" 1023 1023 []
        { type := GeneratorType.iconset, platform := IconPlatform.ios }).warning
      = false := by
  refine ⟨by decide, by rfl, ?_⟩
  simp [assetsPlanCore, iconTooSmall]

/-- Claim C4 amended: the 1024×1024 minimum-size check applies to the `icon`
kind only (not `iconset`).  For `icon`, it fires exactly when either source
dimension is below 1024 — so at 1023×1023 it fires (warning in the lenient
variant, hard rejection in the strict variant) and at 1024×1024 it does
not. -/
theorem c4_size_check_amended (w h : ℚ) :
    (iconTooSmall GeneratorType.icon w h = true ↔ (w < 1024 ∨ h < 1024))
    ∧ (∀ t, t ≠ GeneratorType.icon → iconTooSmall t w h = false)
    ∧ iconTooSmall GeneratorType.icon 1023 1023 = true
    ∧ iconTooSmall GeneratorType.icon 1024 1024 = false
    ∧ strictSizeCheck GeneratorType.icon 1023 1023
        = Except.error "Error: Icon size must be greater than 1024x1024."
    ∧ strictSizeCheck GeneratorType.icon 1024 1024 = Except.ok () := by
  refine ⟨?_, ?_, by decide, by decide, by rfl, by rfl⟩
  · simp [iconTooSmall]
  · intro t htne
    simp [iconTooSmall, htne]

/-- Witness for C4 (amended): the inner implication instantiated at a
concrete non-icon kind and a concrete small source. -/
theorem c4_size_check_amended_witness :
    iconTooSmall GeneratorType.imageset 500 500 = false :=
  (c4_size_check_amended 500 500).2.1 GeneratorType.imageset (by decide)

/-- Counterexample to claim C6 as stated: when BOTH requested dimensions are
the auto sentinel, the requested width is auto yet the resolved target width
is numeric — the loop first defaults `programWidth` to `sourceWidth / 3`
(here 300/3 = 100) and then multiplies by the scale (2x → 200 ≠ auto).  The
claim's "requested width auto → resolved width auto" therefore fails in the
both-auto case. -/
theorem c6_counterexample :
    (processEntry GeneratorType.image ImageFormat.png 300 "img" ".png"
        jimpAUTO jimpAUTO ⟨0, 0, 2, "universal", none⟩).2.1.width = 200
    ∧ (200 : ℚ) ≠ jimpAUTO := by
  constructor
  · rw [processEntry_image (Or.inl rfl)]
    norm_num [jimpAUTO, entryTail]
  · norm_num [jimpAUTO]

/-- Claim C6 amended: the auto sentinel propagates exactly through scale
multiplication — an auto requested height always resolves to auto (for every
scale factor, never NaN, never sentinel×scale), and an auto requested width
resolves to auto whenever the height is not also auto; in the both-auto case
the width is deliberately defaulted to `sourceWidth / 3` first (claim C3)
while the height still resolves to auto. -/
theorem c6_auto_propagation_amended (t : GeneratorType) (fmt : ImageFormat)
    (srcW : ℚ) (baseName ext : String) (pw ph : ℚ) (cfg : ImageConfig)
    (ht : t = GeneratorType.image ∨ t = GeneratorType.imageset) :
    (ph = jimpAUTO →
      (processEntry t fmt srcW baseName ext pw ph cfg).2.1.height = jimpAUTO)
    ∧ (pw = jimpAUTO → ph ≠ jimpAUTO →
      (processEntry t fmt srcW baseName ext pw ph cfg).2.1.width = jimpAUTO) := by
  rw [processEntry_image ht]
  constructor
  · intro hph
    simp [entryTail, hph]
  · intro hpw hph
    simp [entryTail, hpw, hph]

/-- Witness for C6 (amended): an auto width with an explicit height 120
resolves to exactly the auto sentinel at scale 3. -/
theorem c6_auto_propagation_amended_witness :
    (processEntry GeneratorType.image ImageFormat.png 2048 "img" ".png"
        jimpAUTO 120 ⟨0, 0, 3, "universal", none⟩).2.1.width = jimpAUTO :=
  (c6_auto_propagation_amended GeneratorType.image ImageFormat.png 2048
    "img" ".png" jimpAUTO 120 ⟨0, 0, 3, "universal", none⟩ (Or.inl rfl)).2
    rfl (by norm_num [jimpAUTO])

/-- Counterexample to claim C3 as stated: the both-auto @1x width is computed
by exact JavaScript division `image.bitmap.width / 3`, not `floor`.  For a
100-pixel-wide source the resolved @1x width is 100/3, which differs from
`floor(100/3) = 33` and is not an integer — refuting "equals
floor(sourceWidth / 3), an integer for every source width". -/
theorem c3_counterexample :
    (processEntry GeneratorType.image ImageFormat.png 100 "img" ".png"
        jimpAUTO jimpAUTO ⟨0, 0, 1, "universal", none⟩).2.1.width = 100 / 3
    ∧ ((100 : ℚ) / 3) ≠ 33
    ∧ ((100 : ℚ) / 3).den ≠ 1 := by
  refine ⟨?_, by norm_num, ?_⟩
  · rw [processEntry_image (Or.inl rfl)]
    norm_num [jimpAUTO, entryTail]
  · have hd : ((100 : ℚ) / 3).den = 3 := by
      norm_num [Rat.den_div_eq_of_coprime]
    rw [hd]
    norm_num

/-- Claim C3 amended: for an image/imageset request with neither width nor
height supplied, each variant's resolved width is `(sourceWidth / 3) × scale`
by exact division (so the @1x width is `sourceWidth / 3`, an integer exactly
when 3 divides the source width — e.g. a 300-wide source yields 100), and
the resolved height is the auto sentinel, preserving aspect ratio. -/
theorem c3_auto_default_amended (t : GeneratorType) (fmt : ImageFormat)
    (srcW : ℚ) (baseName ext : String) (cfg : ImageConfig)
    (ht : t = GeneratorType.image ∨ t = GeneratorType.imageset)
    (hs : 0 < srcW) :
    (processEntry t fmt srcW baseName ext jimpAUTO jimpAUTO cfg).2.1.width
        = srcW / 3 * cfg.scale
    ∧ (processEntry t fmt srcW baseName ext jimpAUTO jimpAUTO cfg).2.1.height
        = jimpAUTO := by
  have hne : srcW / 3 ≠ jimpAUTO := by
    have : (0 : ℚ) < srcW / 3 := by positivity
    rw [jimpAUTO]
    intro h
    rw [h] at this
    norm_num at this
  rw [processEntry_image ht]
  simp [entryTail, hne]

/-- Witness for C3 (amended) at the spec's example: a 300-wide source with
both dimensions auto yields a 100-wide @1x variant with auto height. -/
theorem c3_auto_default_amended_witness :
    (processEntry GeneratorType.image ImageFormat.png 300 "img" ".png"
        jimpAUTO jimpAUTO ⟨0, 0, 1, "universal", none⟩).2.1.width = 100
    ∧ (processEntry GeneratorType.image ImageFormat.png 300 "img" ".png"
        jimpAUTO jimpAUTO ⟨0, 0, 1, "universal", none⟩).2.1.height = jimpAUTO := by
  have h := c3_auto_default_amended GeneratorType.image ImageFormat.png 300
    "img" ".png" ⟨0, 0, 1, "universal", none⟩ (Or.inl rfl) (by norm_num)
  refine ⟨?_, h.2⟩
  rw [h.1]; norm_num

/-- Claim C10: `generateImageSet` internally builds a request with kind
`icon` and platform `ios` (both historical variants do), so the produced
plan is an `AppIcon.appiconset` whose variant dimensions come entirely from
the loaded ios icon template (`pathDir icon ios = "ios"`), and the width and
height arguments have no effect whatsoever on the produced plan — despite
the function's documented purpose of generating an imageset at the given
@1x width/height. -/
theorem c10_generateImageSet_builds_icon_request (w h w2 h2 : Option ℚ)
    (fmtArg : Option ImageFormat) (baseName ext : String) (srcW srcH : ℚ)
    (template : List ImageConfig) (webCfg : WebConfig) :
    (generateImageSetOption w h).type = GeneratorType.icon
    ∧ (generateImageSetOption w h).platform = IconPlatform.ios
    ∧ (generateImageSetOptionStrict w h fmtArg).type = GeneratorType.icon
    ∧ (generateImageSetOptionStrict w h fmtArg).platform = IconPlatform.ios
    ∧ pathDir GeneratorType.icon IconPlatform.ios = "ios"
    ∧ generateImageSetPlan baseName ext srcW srcH template webCfg w h
        = generateImageSetPlan baseName ext srcW srcH template webCfg w2 h2
    ∧ ∃ p, generateImageSetPlan baseName ext srcW srcH template webCfg w h
          = GenPlan.assets p
        ∧ p.outputDir = "AppIcon.appiconset"
        ∧ p.resizeOptions.map (fun ro => (ro.width, ro.height))
          = template.map (fun c => (c.sizeW * c.scale, c.sizeH * c.scale)) := by
  refine ⟨rfl, rfl, rfl, rfl, rfl, ?_, ?_⟩
  · simp only [generateImageSetPlan, generateImageAssetsPlan, Option.getD_some,
      generateImageSetOption, assetsPlanCore]
    norm_num
    rw [processEntries_icon_indep (Or.inl rfl) ImageFormat.png srcW baseName ext
      template (Option.getD w jimpAUTO) (Option.getD h jimpAUTO)
      (Option.getD w2 jimpAUTO) (Option.getD h2 jimpAUTO)]
  · refine ⟨assetsPlanCore baseName ext srcW srcH template
      (generateImageSetOption w h), rfl, rfl, ?_⟩
    simp only [assetsPlanCore, generateImageSetOption, List.map_map]
    exact processEntries_icon_dims (Or.inl rfl) ImageFormat.png srcW baseName
      ext template _ _

/-- Claim C9: a request with platform `web` bypasses the per-kind template
entirely (the result does not depend on the loaded template at all) and
plans exactly: one square png output per Apple-touch-icon dimension, then
one square png output per favicon dimension, in list order, plus the text
artifact `code.txt` holding the concatenation of one `<link>` line per
generated dimension in the same order. -/
theorem c9_web_plan (baseName ext : String) (srcW srcH : ℚ)
    (template template2 : List ImageConfig) (webCfg : WebConfig)
    (opt : GeneratorOption) (hweb : opt.platform = IconPlatform.web) :
    generateImageAssetsPlan baseName ext srcW srcH template webCfg (some opt)
        = GenPlan.web (generateWebIconImagesPlan webCfg)
    ∧ generateImageAssetsPlan baseName ext srcW srcH template webCfg (some opt)
        = generateImageAssetsPlan baseName ext srcW srcH template2 webCfg (some opt)
    ∧ (generateWebIconImagesPlan webCfg).options
        = webCfg.appleIconDimensions.map appleIconOption
          ++ webCfg.favIconDimensions.map favIconOption
    ∧ (∀ o ∈ (generateWebIconImagesPlan webCfg).options,
        o.width = o.height ∧ o.format = some ImageFormat.png)
    ∧ (generateWebIconImagesPlan webCfg).options.length
        = webCfg.appleIconDimensions.length + webCfg.favIconDimensions.length
    ∧ (generateWebIconImagesPlan webCfg).htmlCode
        = String.join (webCfg.appleIconDimensions.map appleIconLink)
          ++ String.join (webCfg.favIconDimensions.map favIconLink)
    ∧ (generateWebIconImagesPlan webCfg).codeFilename = "code.txt" := by
  have hbypass :
      generateImageAssetsPlan baseName ext srcW srcH template webCfg (some opt)
        = GenPlan.web (generateWebIconImagesPlan webCfg) := by
    simp [generateImageAssetsPlan, hweb]
  have hbypass2 :
      generateImageAssetsPlan baseName ext srcW srcH template2 webCfg (some opt)
        = GenPlan.web (generateWebIconImagesPlan webCfg) := by
    simp [generateImageAssetsPlan, hweb]
  refine ⟨hbypass, hbypass.trans hbypass2.symm, rfl, ?_, ?_, rfl, rfl⟩
  · intro o ho
    simp only [generateWebIconImagesPlan, List.mem_append, List.mem_map] at ho
    rcases ho with ⟨d, _, hd⟩ | ⟨d, _, hd⟩ <;> subst hd <;>
      simp [appleIconOption, favIconOption]
  · simp [generateWebIconImagesPlan]

/-- Witness for C9 at a concrete web request and concrete dimension lists. -/
theorem c9_web_plan_witness :
    generateImageAssetsPlan "img" ".png" 2048 2048 [] ⟨[180], [32]⟩
        (some { type := GeneratorType.icon, platform := IconPlatform.web })
      = GenPlan.web (generateWebIconImagesPlan ⟨[180], [32]⟩) :=
  (c9_web_plan "img" ".png" 2048 2048 [] [] ⟨[180], [32]⟩
    { type := GeneratorType.icon, platform := IconPlatform.web } rfl).1

/-- Claim C8: the emitted manifest has exactly one entry per template
variant; every manifest entry's filename is exactly the filename the
executor writes for the corresponding planned resize instruction (same list
position); and the plan is stable under rerunning the identical request —
even on the `require`-cached, already-annotated template state a first run
leaves behind, the second run produces the identical manifest and resize
plan, so two identical runs serialize byte-for-byte identical manifest
JSON. -/
theorem c8_manifest_roundtrip_idempotent (baseName ext : String)
    (srcW srcH : ℚ) (template : List ImageConfig) (opt : GeneratorOption) :
    (assetsPlanCore baseName ext srcW srcH template opt).contents.length
        = template.length
    ∧ (assetsPlanCore baseName ext srcW srcH template opt).contents.map
          ImageConfig.filename
        = (assetsPlanCore baseName ext srcW srcH template opt).resizeOptions.map
          (fun ro => some (executorFileName ext ro))
    ∧ assetsPlanCore baseName ext srcW srcH
          ((assetsPlanCore baseName ext srcW srcH template opt).contents) opt
        = assetsPlanCore baseName ext srcW srcH template opt := by
  refine ⟨?_, ?_, ?_⟩
  · simp only [assetsPlanCore, List.length_map]
    exact processEntries_length ..
  · simp only [assetsPlanCore, List.map_map]
    exact processEntries_filename_matches ..
  · simp only [assetsPlanCore]
    rw [processEntries_rerun]

/-- Counterexample to claim C2 as stated: the planning loop annotates the
`require`-cached template in place (`let contents = config` aliases it, and
`imageConfig['filename'] = ...` mutates each cached entry), so after one
icon request the in-memory template a second request loads carries a
`filename` annotation — it is not an unchanged annotation-free template. -/
theorem c2_counterexample :
    cachedTemplateAfter "img" ".png" 2048 2048 [⟨60, 60, 2, "iphone", none⟩]
        { type := GeneratorType.icon, platform := IconPlatform.ios }
      = [⟨60, 60, 2, "iphone", some "img-120.png"⟩]
    ∧ cachedTemplateAfter "img" ".png" 2048 2048 [⟨60, 60, 2, "iphone", none⟩]
        { type := GeneratorType.icon, platform := IconPlatform.ios }
      ≠ [⟨60, 60, 2, "iphone", none⟩]
    ∧ (some "img-120.png" : Option String) ≠ none := by
  have h120 : numStr ((60 : ℚ) * 2) = "120" := by
    norm_num [numStr]
    decide
  have hmain : cachedTemplateAfter "img" ".png" 2048 2048
      [⟨60, 60, 2, "iphone", none⟩]
      { type := GeneratorType.icon, platform := IconPlatform.ios }
      = [⟨60, 60, 2, "iphone", some "img-120.png"⟩] := by
    simp [cachedTemplateAfter, assetsPlanCore, processEntries, processEntry,
      entryTail, h120, formatStr]
  refine ⟨hmain, ?_, by simp⟩
  rw [hmain]
  simp

/-- Claim C2 amended: the template is NOT deep-copied; the annotated manifest
aliases the cached template, so after a request every cached entry carries a
`filename` annotation.  The mutation only adds/overwrites `filename` (all
other fields are preserved), and rerunning the identical request on the
mutated cache reproduces the identical plan, so repeated identical requests
are unaffected (distinct requests, however, observe each other's
annotations). -/
theorem c2_template_mutation_amended (baseName ext : String) (srcW srcH : ℚ)
    (template : List ImageConfig) (opt : GeneratorOption) :
    cachedTemplateAfter baseName ext srcW srcH template opt
        = (assetsPlanCore baseName ext srcW srcH template opt).contents
    ∧ (cachedTemplateAfter baseName ext srcW srcH template opt).length
        = template.length
    ∧ (∀ c ∈ cachedTemplateAfter baseName ext srcW srcH template opt,
        c.filename.isSome = true)
    ∧ (cachedTemplateAfter baseName ext srcW srcH template opt).map
          (fun c => (c.sizeW, c.sizeH, c.scale, c.idiom))
        = template.map (fun c => (c.sizeW, c.sizeH, c.scale, c.idiom))
    ∧ assetsPlanCore baseName ext srcW srcH
          (cachedTemplateAfter baseName ext srcW srcH template opt) opt
        = assetsPlanCore baseName ext srcW srcH template opt := by
  refine ⟨rfl, ?_, ?_, ?_, ?_⟩
  · simp only [cachedTemplateAfter, assetsPlanCore, List.length_map]
    exact processEntries_length ..
  · intro c hc
    simp only [cachedTemplateAfter, assetsPlanCore, List.mem_map] at hc
    obtain ⟨pr, hpr, hc⟩ := hc
    obtain ⟨f, -, -, hfn, -⟩ := processEntries_mem _ _ _ _ _ _ _ _ pr hpr
    rw [← hc, hfn]
    rfl
  · simp only [cachedTemplateAfter, assetsPlanCore, List.map_map]
    exact processEntries_preserves_fields ..
  · simp only [cachedTemplateAfter, assetsPlanCore]
    rw [processEntries_rerun]

/-- Witness for C2 (amended): the inner membership statement instantiated at
a concrete template entry — after the request, that cached entry carries a
filename annotation. -/
theorem c2_template_mutation_amended_witness :
    ∀ c ∈ cachedTemplateAfter "img" ".png" 2048 2048
        [⟨60, 60, 2, "iphone", none⟩]
        { type := GeneratorType.icon, platform := IconPlatform.ios },
      c.filename.isSome = true :=
  (c2_template_mutation_amended "img" ".png" 2048 2048
    [⟨60, 60, 2, "iphone", none⟩]
    { type := GeneratorType.icon, platform := IconPlatform.ios }).2.2.1

/-- Counterexample to claim C1 as stated: the library itself never forces
png for icon requests — a direct `generateImageAssets` request
`{type: 'icon', format: 'tiff'}` plans `.tiff` files and records `.tiff`
filenames in the manifest (the png forcing lives only in the CLI's
`buildOptions`). -/
theorem c1_counterexample :
    (assetsPlanCore "img" ".png" 2048 2048 [⟨60, 60, 2, "iphone", none⟩]
        { type := GeneratorType.icon, platform := IconPlatform.ios,
          format := some ImageFormat.tiff }).contents.map ImageConfig.filename
      = [some "img-120.tiff"]
    ∧ (assetsPlanCore "img" ".png" 2048 2048 [⟨60, 60, 2, "iphone", none⟩]
        { type := GeneratorType.icon, platform := IconPlatform.ios,
          format := some ImageFormat.tiff }).resizeOptions.map ResizeOption.format
      = [some ImageFormat.tiff]
    ∧ (some "img-120.tiff" : Option String) ≠ some "img-120.png" := by
  have h120 : numStr ((60 : ℚ) * 2) = "120" := by
    norm_num [numStr]
    decide
  refine ⟨?_, ?_, by decide⟩ <;>
    simp [assetsPlanCore, processEntries, processEntry, entryTail, h120,
      formatStr]

/-- Claim C1 amended: the png forcing for icon requests happens in the CLI
layer only — `buildOptions` forces `format = png` whenever the requested
type normalises to `icon` — so every CLI-initiated icon generation carries
format png, and any request whose format is png (as those are) yields `.png`
extensions on every planned file and every manifest filename.  A direct
library call with a non-png format is NOT overridden (see the
counterexample). -/
theorem c1_png_forcing_amended (typeOpt platformOpt formatOpt : String)
    (wOpt hOpt : ℚ) (baseName ext : String) (srcW srcH : ℚ)
    (template : List ImageConfig) (opt : GeneratorOption)
    (hty : parseTypeStr (toLower typeOpt) = GeneratorType.icon)
    (hfmt : opt.format = some ImageFormat.png) :
    (buildOptions typeOpt platformOpt formatOpt wOpt hOpt).format
        = some ImageFormat.png
    ∧ (∀ c ∈ (assetsPlanCore baseName ext srcW srcH template opt).contents,
        ∃ b, c.filename = some (b ++ ".png"))
    ∧ (∀ ro ∈ (assetsPlanCore baseName ext srcW srcH template opt).resizeOptions,
        ro.format = some ImageFormat.png
        ∧ ∃ f, ro.filename = some f
            ∧ executorFileName ext ro = f ++ ".png") := by
  refine ⟨?_, ?_, ?_⟩
  · simp [buildOptions, hty]
  · intro c hc
    simp only [assetsPlanCore, hfmt, Option.getD_some, List.mem_map] at hc
    obtain ⟨pr, hpr, hc⟩ := hc
    obtain ⟨f, -, -, hfn, -⟩ := processEntries_mem _ _ _ _ _ _ _ _ pr hpr
    refine ⟨f, ?_⟩
    rw [← hc, hfn]
    simp [formatStr]
  · intro ro hro
    simp only [assetsPlanCore, hfmt, Option.getD_some, List.mem_map] at hro
    obtain ⟨pr, hpr, hro⟩ := hro
    obtain ⟨f, hfmt2, hfn2, -, hex⟩ := processEntries_mem _ _ _ _ _ _ _ _ pr hpr
    subst hro
    refine ⟨hfmt2, f, hfn2, ?_⟩
    rw [hex]
    simp [formatStr]

/-- Witness for C1 (amended): the CLI forces png even when the user asks for
tiff icons, and the planned manifest filename for a concrete png icon
request ends in `.png`. -/
theorem c1_png_forcing_amended_witness :
    (buildOptions "icon" "ios" "tiff" (-1) (-1)).format = some ImageFormat.png :=
  (c1_png_forcing_amended "icon" "ios" "tiff" (-1) (-1) "img" ".png" 2048 2048
    [] { type := GeneratorType.icon, platform := IconPlatform.ios,
         format := some ImageFormat.png } (by decide) rfl).1

end AppIconKit
